import Mathlib

/-!
Shallow embedding of the Powerhose job-dispatch broker, from
`src/powerhose/jobrunner.py` and `src/powerhose/client.py`.

Time is modelled in integer milliseconds (the Python code converts its
second-valued floats to milliseconds before every comparison).  The
transport behaviour observed by one dispatch attempt (send/poll/recv
failures, whether the poll returned events, the unserialized reply frame)
is packaged as an `AttemptEnv`; the code is a deterministic function of it.
-/

namespace Powerhose

/-- Exceptions that can be raised inside the body of `JobRunner._execute`
(jobrunner.py lines 116-151): the module-level `TimeoutError` and
`ExecutionError` classes, the `NotImplementedError` raised on an unexpected
opcode, and the `IndexError` a `msg[0]` access raises on an empty list. -/
inductive Exc where
  | timeoutError
  | executionError (msg : String)
  | notImplementedError (msg : String)
  | indexError
deriving DecidableEq

/-- Rendering of `str(e)` used when the catch-all handler at jobrunner.py
line 153 builds the message of the wrapping `ExecutionError`
(`exc.insert(0, str(e))`). The traceback lines are opaque and omitted. -/
def excString : Exc → String
  | Exc.timeoutError => "TimeoutError"
  | Exc.executionError m => m
  | Exc.notImplementedError m => m
  | Exc.indexError => "IndexError"

/-- Whether `JobRunner.execute`'s `except (TimeoutError, ExecutionError)`
clause (jobrunner.py line 107) catches the exception. -/
def retryable : Exc → Bool
  | Exc.timeoutError => true
  | Exc.executionError _ => true
  | Exc.notImplementedError _ => false
  | Exc.indexError => false

/-- The transport behaviour observed by one dispatch attempt of
`JobRunner._execute`: the identity of the worker checked out by
`self.workers.worker()`, whether `worker.send` raises `zmq.ZMQError`
(with its message), likewise for `poller.poll` and `socket.recv`, whether
the poll returned any events, and the unserialized parts of the reply. -/
structure AttemptEnv where
  workerId : String
  sendErr : Option String
  pollErr : Option String
  hasEvents : Bool
  recvErr : Option String
  msg : List String

/-- Modelled from the spec: the worker registry (`powerhose.workermgr.Workers`,
not under src/) holds the identities of the live workers;
`delete(identity)` removes a worker unconditionally (spec section 4.2). -/
abbrev Registry := List String

/-- Modelled from the spec: `Workers.delete` removes the identity from the
registry unconditionally. -/
def Registry.delete (reg : Registry) (identity : String) : Registry :=
  List.filter (fun w => w ≠ identity) reg

/-- The body of the `with self.workers.worker() as worker:` block of
`JobRunner._execute` (jobrunner.py lines 125-151): send the job frame
(`zmq.ZMQError` becomes `ExecutionError`), poll up to the deadline
(`ZMQError` becomes `ExecutionError`, no events raises `TimeoutError`),
receive (`ZMQError` becomes `ExecutionError`), then return `msg[-1]` when
`msg[0] == 'JOBRES'` and raise `NotImplementedError(str(msg))` otherwise. -/
def innerExecute (env : AttemptEnv) : Except Exc String :=
  match env.sendErr with
  | some e => Except.error (Exc.executionError e)
  | none =>
    match env.pollErr with
    | some e => Except.error (Exc.executionError e)
    | none =>
      if env.hasEvents = false then Except.error Exc.timeoutError
      else
        match env.recvErr with
        | some e => Except.error (Exc.executionError e)
        | none =>
          match env.msg with
          | [] => Except.error Exc.indexError
          | m0 :: rest =>
            if m0 = "JOBRES" then Except.ok ((m0 :: rest).getLastD "")
            else Except.error (Exc.notImplementedError (String.intercalate " " (m0 :: rest)))

/-- Outcome of one `JobRunner._execute` call: the returned payload or the
raised exception, together with the registry after the call. -/
structure AttemptResult where
  result : Except Exc String
  reg : Registry

/-- `JobRunner._execute` (jobrunner.py lines 116-163): run the attempt body;
on success the worker goes back to the pool and the registry is unchanged;
on any exception the `except Exception` handler deletes the worker from the
registry (`self.workers.delete(worker.identity)`) and re-raises
`ExecutionError` whose message starts with `str(e)` followed by the
formatted traceback. -/
def JobRunner._execute (reg : Registry) (env : AttemptEnv) : AttemptResult :=
  match innerExecute env with
  | Except.ok payload => { result := Except.ok payload, reg := reg }
  | Except.error e =>
    { result := Except.error (Exc.executionError (excString e))
      reg := Registry.delete reg env.workerId }

/-- Outcome of `JobRunner.execute`: `result = none` models the Python method
falling off the end and returning `None`; `some (Except.ok p)` is a returned
payload; `some (Except.error e)` is a raised exception.  `attempts` counts
the `_execute` calls made. -/
structure ExecResult where
  result : Option (Except Exc String)
  reg : Registry
  attempts : Nat

/-- The `for i in range(self.retries)` loop of `JobRunner.execute`
(jobrunner.py lines 104-112): each iteration calls `_execute` with the
environment of that attempt; a retryable exception is captured in `e` and
the loop continues; any other exception propagates; after the loop the
last captured `e` is re-raised if there was one, else `None` is returned. -/
def JobRunner.executeAux (envs : Nat → AttemptEnv) :
    Nat → Registry → Nat → Option Exc → ExecResult
  | 0, reg, attempts, lastErr =>
    { result := Option.map Except.error lastErr, reg := reg, attempts := attempts }
  | fuel + 1, reg, attempts, lastErr =>
    let a := JobRunner._execute reg (envs attempts)
    match a.result with
    | Except.ok payload =>
      { result := some (Except.ok payload), reg := a.reg, attempts := attempts + 1 }
    | Except.error e =>
      if retryable e then JobRunner.executeAux envs fuel a.reg (attempts + 1) (some e)
      else { result := some (Except.error e), reg := a.reg, attempts := attempts + 1 }

/-- `JobRunner.execute` (jobrunner.py lines 84-112). `retries` is the
constructor argument; `range(self.retries)` is empty when it is not
positive. -/
def JobRunner.execute (retries : Int) (reg : Registry) (envs : Nat → AttemptEnv) : ExecResult :=
  JobRunner.executeAux envs retries.toNat reg 0 none

/-- Default of the `retries` argument of `JobRunner.__init__`
(jobrunner.py line 57). -/
def defaultRetries : Int := 3

/-- The exception carried by an `Except.error`; the `Except.ok` case is
never used where this function is applied. -/
def theError : Except Exc String → Exc
  | Except.error e => e
  | Except.ok _ => Exc.timeoutError

/-- Configuration of a `Client` (client.py lines 32-45), with the two
timeouts already converted to milliseconds as the constructor does
(`self.timeout = timeout * 1000`,
`self.timeout_max_overflow = timeout_max_overflow * 1000`). -/
structure ClientCfg where
  timeout : Int
  timeout_max_overflow : Int
  timeout_overflows : Int

/-- The constructor defaults of `Client.__init__` (client.py lines 32-34):
`timeout=1.`, `timeout_max_overflow=1.5`, `timeout_overflows=1`, in ms. -/
def defaultClientCfg : ClientCfg :=
  { timeout := 1000, timeout_max_overflow := 1500, timeout_overflows := 1 }

/-- Modelled from the spec: `extract_result` (`powerhose.util`, not under
src/) decodes a received result into the triple
`(worker_pid, res, data)` = (worker id, success flag, payload). A `Reply`
is that decoded triple. -/
structure Reply where
  worker_pid : String
  res : Bool
  data : String
deriving DecidableEq

/-- Modelled from the spec: `decode_result` on a result frame
`["JOBRES", worker_id, ok_byte, payload]` (spec section 4.1), where the
ok byte encodes the boolean (here: the part "1" is true). -/
def decode_result : List String → Option Reply
  | [op, wid, okb, payload] =>
    if op = "JOBRES" then some { worker_pid := wid, res := okb == "1", data := payload }
    else none
  | _ => none

/-- What the environment does during one `Client.execute` call:
`reply = none` models the poll in `Client._execute` (client.py lines
103-110) expiring with no event, in which case `_execute` raises
`TimeoutError`; `reply = some r` is the decoded reply; `duration` is the
elapsed time `(time.time() - start) * 1000` measured at client.py line 74. -/
structure ClientEnv where
  reply : Option Reply
  duration : Int

/-- Exceptions raised by `Client.execute` (the `powerhose.exc` classes
imported at client.py line 11). -/
inductive ClientErr where
  | timeoutError
  | executionError (data : String)
deriving DecidableEq

/-- The per-worker overflow counters `self.timeout_counters`, a
`defaultdict(int)`: total function with default 0. -/
abbrev Counters := String → Int

/-- The body of `Client.execute` once `extract_result` has produced
`(worker_pid, res, data)` (client.py lines 74-94): if `duration` exceeds
`self.timeout` the worker's counter is incremented and, when the counter
now exceeds `self.timeout_overflows`, `TimeoutError` is raised; otherwise
the counter is reset to 0; then `ExecutionError(data)` is raised when
`res` is falsy, else `data` is returned. -/
def Client.executeReply (cfg : ClientCfg) (counters : Counters) (r : Reply)
    (duration : Int) : Except ClientErr String × Counters :=
  if duration > cfg.timeout then
    let c : Counters := fun w => if w = r.worker_pid then counters r.worker_pid + 1 else counters w
    if c r.worker_pid > cfg.timeout_overflows then (Except.error ClientErr.timeoutError, c)
    else if r.res = false then (Except.error (ClientErr.executionError r.data), c)
    else (Except.ok r.data, c)
  else
    let c : Counters := fun w => if w = r.worker_pid then 0 else counters w
    if r.res = false then (Except.error (ClientErr.executionError r.data), c)
    else (Except.ok r.data, c)

/-- `Client.execute` (client.py lines 47-94): `Client._execute` either
returns a reply or, when the poll expired with no event, raises
`TimeoutError` (client.py line 110), which the `except` block re-raises
unchanged, leaving the counters untouched. -/
def Client.execute (cfg : ClientCfg) (counters : Counters) (env : ClientEnv) :
    Except ClientErr String × Counters :=
  match env.reply with
  | none => (Except.error ClientErr.timeoutError, counters)
  | some r => Client.executeReply cfg counters r env.duration

/-- A pooled client fabric: its mutable state is its counter map. -/
structure Fabric where
  counters : Counters

/-- A `Client` as freshly built by `Pool._create_client`
(client.py lines 135-137): its `timeout_counters` defaultdict is empty. -/
def freshFabric : Fabric := { counters := fun _ => 0 }

/-- The `Queue` of connectors of a `Pool`, front of the list = next `get`. -/
abbrev PoolState := List Fabric

/-- `Pool.__init__` (client.py lines 124-133): put `size` freshly created
clients on the queue. -/
def Pool.init (size : Nat) : PoolState := List.replicate size freshFabric

/-- `Pool.execute` (client.py lines 139-150): `get` a connector (`none`
models `Queue.Empty` on an empty queue, leaving the pool unchanged), run
`connector.execute`; on success `put` the connector back; on any raised
error `put` a freshly created client (the failed connector is dropped)
and re-raise. -/
def Pool.execute (cfg : ClientCfg) (pool : PoolState) (env : ClientEnv) :
    Option (Except ClientErr String × PoolState) :=
  match pool with
  | [] => none
  | f :: rest =>
    match Client.execute cfg f.counters env with
    | (Except.ok d, c) => some (Except.ok d, rest ++ [{ counters := c }])
    | (Except.error e, _) => some (Except.error e, rest ++ [freshFabric])

/-- Modelled from the spec: the registration loop
(`powerhose.workermgr.WorkerRegistration`, not under src/) is started and
stopped by `JobRunner.start` / `JobRunner.stop`; each call made to it is
recorded as an event. -/
inductive RegEvent where
  | regStart
  | regStop
deriving DecidableEq

/-- The state of a `JobRunner` as far as `start` / `stop` are concerned:
the `self.started` flag and the trace of the calls made on
`self.registration`. -/
structure RunnerState where
  started : Bool
  regEvents : List RegEvent
deriving DecidableEq

/-- `JobRunner.start` (jobrunner.py lines 66-73): return early when already
started, otherwise call `self.registration.start()` and set the flag. -/
def JobRunner.start (s : RunnerState) : RunnerState :=
  if s.started then s
  else { started := true, regEvents := s.regEvents ++ [RegEvent.regStart] }

/-- `JobRunner.stop` (jobrunner.py lines 75-82): return early when not
started, otherwise call `self.registration.stop()` and clear the flag. -/
def JobRunner.stop (s : RunnerState) : RunnerState :=
  if s.started = false then s
  else { started := false, regEvents := s.regEvents ++ [RegEvent.regStop] }

/-- A dispatch attempt in which the worker sends no reply before the poll
deadline: the poll returns no events. -/
def timeoutEnv : AttemptEnv :=
  { workerId := "w1", sendErr := none, pollErr := none, hasEvents := false
    recvErr := none, msg := [] }

/-- A dispatch attempt in which the worker replies with the unexpected
opcode `PONG` (spec section 8, scenario 5). -/
def badOpcodeEnv : AttemptEnv :=
  { workerId := "w1", sendErr := none, pollErr := none, hasEvents := true
    recvErr := none, msg := ["PONG"] }

/-- A dispatch attempt in which the worker replies with a `JOBRES` frame
whose ok byte is "0" (a failure envelope) and payload "boom". -/
def jobresFalseEnv : AttemptEnv :=
  { workerId := "w1", sendErr := none, pollErr := none, hasEvents := true
    recvErr := none, msg := ["JOBRES", "w1", "0", "boom"] }

/-! Helper lemmas about the retry loop. -/

theorem executeAux_attempts_le (envs : Nat → AttemptEnv) :
    ∀ fuel attempts reg lastErr,
      (JobRunner.executeAux envs fuel reg attempts lastErr).attempts ≤ attempts + fuel := by
  intro fuel
  induction fuel with
  | zero =>
    intro attempts reg lastErr
    simp [JobRunner.executeAux]
  | succ k ih =>
    intro attempts reg lastErr
    simp only [JobRunner.executeAux]
    cases h : (JobRunner._execute reg (envs attempts)).result with
    | ok payload => simp only [h]; omega
    | error e =>
      simp only [h]
      cases hre : retryable e
      · simp only [hre, Bool.false_eq_true, if_false]
        omega
      · simp only [hre, if_true]
        have := ih (attempts + 1) (JobRunner._execute reg (envs attempts)).reg (some e)
        omega

theorem executeAux_all_fail (envs : Nat → AttemptEnv) :
    ∀ fuel, 1 ≤ fuel → ∀ attempts reg lastErr,
      (∀ i, i < fuel → (innerExecute (envs (attempts + i))).isOk = false) →
      (JobRunner.executeAux envs fuel reg attempts lastErr).result =
          some (Except.error (Exc.executionError (excString
            (theError (innerExecute (envs (attempts + fuel - 1))))))) ∧
      (JobRunner.executeAux envs fuel reg attempts lastErr).attempts = attempts + fuel := by
  intro fuel
  induction fuel with
  | zero => intro h; exact absurd h (by omega)
  | succ k ih =>
    intro _ attempts reg lastErr hfail
    have h0 : (innerExecute (envs attempts)).isOk = false := by
      have := hfail 0 (by omega)
      rwa [Nat.add_zero] at this
    cases he : innerExecute (envs attempts) with
    | ok p =>
      rw [he] at h0
      simp [Except.isOk, Except.toBool] at h0
    | error e =>
      have hexec : JobRunner._execute reg (envs attempts) =
          { result := Except.error (Exc.executionError (excString e))
            reg := Registry.delete reg (envs attempts).workerId } := by
        simp [JobRunner._execute, he]
      simp only [JobRunner.executeAux, hexec]
      have hre : retryable (Exc.executionError (excString e)) = true := rfl
      simp only [hre, if_true]
      cases k with
      | zero =>
        simp only [JobRunner.executeAux]
        constructor
        · have harg : attempts + (0 + 1) - 1 = attempts := by omega
          rw [harg, he]
          rfl
        · simp [JobRunner.executeAux]
      | succ m =>
        have hshift : ∀ i, i < m + 1 →
            (innerExecute (envs (attempts + 1 + i))).isOk = false := by
          intro i hi
          have := hfail (i + 1) (by omega)
          have harg : attempts + (i + 1) = attempts + 1 + i := by omega
          rwa [harg] at this
        have := ih (by omega) (attempts + 1)
          (Registry.delete reg (envs attempts).workerId)
          (some (Exc.executionError (excString e))) hshift
        have harg : attempts + 1 + (m + 1) - 1 = attempts + (m + 1 + 1) - 1 := by omega
        rw [harg] at this
        have harg2 : attempts + 1 + (m + 1) = attempts + (m + 1 + 1) := by omega
        rw [harg2] at this
        exact this

/-- Evaluation of `Client.executeReply` with the counter update written
pointwise, used to settle the client-side claims. -/
theorem executeReply_eval (cfg : ClientCfg) (counters : Counters) (r : Reply)
    (duration : Int) :
    Client.executeReply cfg counters r duration =
      if duration > cfg.timeout then
        (if counters r.worker_pid + 1 > cfg.timeout_overflows then
           Except.error ClientErr.timeoutError
         else if r.res = false then Except.error (ClientErr.executionError r.data)
         else Except.ok r.data,
         fun w => if w = r.worker_pid then counters r.worker_pid + 1 else counters w)
      else
        (if r.res = false then Except.error (ClientErr.executionError r.data)
         else Except.ok r.data,
         fun w => if w = r.worker_pid then 0 else counters w) := by
  by_cases hd : duration > cfg.timeout <;>
    by_cases hb : counters r.worker_pid + 1 > cfg.timeout_overflows <;>
      by_cases hres : r.res = false <;>
        simp [Client.executeReply, hd, hb, hres]

/-- C8: `JobRunner.start` and `JobRunner.stop` are idempotent: a second
`start` is a no-op (the registration loop is started only once and the state
is unchanged), and likewise a second `stop`. -/
theorem start_stop_idempotent (s : RunnerState) :
    JobRunner.start (JobRunner.start s) = JobRunner.start s ∧
    JobRunner.stop (JobRunner.stop s) = JobRunner.stop s := by
  constructor
  · cases h : s.started <;> simp [JobRunner.start, h]
  · cases h : s.started <;> simp [JobRunner.stop, h]

/-- C9: when a `JobRunner` is constructed with `retries ≤ 0`, the
`for i in range(self.retries)` loop body never runs, so `execute` makes no
dispatch attempt, leaves the registry alone, raises nothing and returns
`None`. -/
theorem execute_zero_retries (retries : Int) (reg : Registry)
    (envs : Nat → AttemptEnv) (h : retries ≤ 0) :
    JobRunner.execute retries reg envs =
      { result := none, reg := reg, attempts := 0 } := by
  have ht : retries.toNat = 0 := Int.toNat_of_nonpos h
  simp [JobRunner.execute, ht, JobRunner.executeAux]

/-- Witness for `execute_zero_retries` at `retries = 0`. -/
theorem execute_zero_retries_witness :
    JobRunner.execute 0 ["w1"] (fun _ => timeoutEnv) =
      { result := none, reg := ["w1"], attempts := 0 } :=
  execute_zero_retries 0 ["w1"] (fun _ => timeoutEnv) (by decide)

/-- C4: `retries` defaults to 3; `JobRunner.execute` makes at most
`retries` dispatch attempts; and when every attempt fails, the error that
is re-raised after the loop is the `ExecutionError` produced by the last
failing `_execute` call. -/
theorem execute_retry_policy (retries : Int) (reg : Registry)
    (envs : Nat → AttemptEnv) :
    defaultRetries = 3 ∧
    (JobRunner.execute retries reg envs).attempts ≤ retries.toNat ∧
    ((∀ i, i < retries.toNat → (innerExecute (envs i)).isOk = false) →
      1 ≤ retries.toNat →
      (JobRunner.execute retries reg envs).result =
        some (Except.error (Exc.executionError (excString
          (theError (innerExecute (envs (retries.toNat - 1)))))))) := by
  refine ⟨rfl, ?_, ?_⟩
  · have := executeAux_attempts_le envs retries.toNat 0 reg none
    simpa [JobRunner.execute] using this
  · intro hfail hpos
    have := executeAux_all_fail envs retries.toNat hpos 0 reg none
      (by intro i hi; simpa using hfail i hi)
    simpa [JobRunner.execute] using this.1

/-- Witness for `execute_retry_policy`: two attempts that both time out;
the surfaced error is the wrapped `TimeoutError` of the second attempt. -/
theorem execute_retry_policy_witness :
    (JobRunner.execute 2 ["w1"] (fun _ => timeoutEnv)).attempts ≤ 2 ∧
    (JobRunner.execute 2 ["w1"] (fun _ => timeoutEnv)).result =
      some (Except.error (Exc.executionError "TimeoutError")) := by
  have h := execute_retry_policy 2 ["w1"] (fun _ => timeoutEnv)
  constructor
  · exact h.2.1
  · have h2 := h.2.2 (fun i hi => rfl) (by decide)
    exact h2.trans rfl

/-- C2 counterexample: with a worker that replies `["PONG"]` on every
attempt and `retries = 3`, `JobRunner.execute` makes all three dispatch
attempts — the unexpected-opcode failure IS retried, because `_execute`
wraps the `NotImplementedError` into the retryable `ExecutionError`. -/
theorem bad_opcode_retried_counterexample :
    (JobRunner.execute 3 ["w1"] (fun _ => badOpcodeEnv)).attempts = 3 ∧
    (JobRunner.execute 3 ["w1"] (fun _ => badOpcodeEnv)).result =
      some (Except.error (Exc.executionError "PONG")) := by
  exact ⟨rfl, rfl⟩

/-- C2 amended: the retry loop catches only `TimeoutError` and
`ExecutionError`, but a reply with an unexpected opcode raises
`NotImplementedError`, which the catch-all handler of `_execute` rewraps
into the retryable `ExecutionError`; hence the bad-opcode reply is retried
up to `retries` times. The replying worker is evicted from the registry. -/
theorem bad_opcode_is_retried (env : AttemptEnv) (m0 : String)
    (rest : List String) (hs : env.sendErr = none) (hp : env.pollErr = none)
    (he : env.hasEvents = true) (hr : env.recvErr = none)
    (hm : env.msg = m0 :: rest) (hne : ¬m0 = "JOBRES")
    (reg : Registry) (retries : Int) :
    innerExecute env =
      Except.error (Exc.notImplementedError (String.intercalate " " (m0 :: rest))) ∧
    (JobRunner._execute reg env).result =
      Except.error (Exc.executionError (String.intercalate " " (m0 :: rest))) ∧
    retryable (Exc.executionError (String.intercalate " " (m0 :: rest))) = true ∧
    (JobRunner._execute reg env).reg = Registry.delete reg env.workerId ∧
    (1 ≤ retries.toNat →
      (JobRunner.execute retries reg (fun _ => env)).attempts = retries.toNat) := by
  have hinner : innerExecute env =
      Except.error (Exc.notImplementedError (String.intercalate " " (m0 :: rest))) := by
    simp [innerExecute, hs, hp, he, hr, hm, hne]
  refine ⟨hinner, ?_, rfl, ?_, ?_⟩
  · simp [JobRunner._execute, hinner, excString]
  · simp [JobRunner._execute, hinner]
  · intro hpos
    have := executeAux_all_fail (fun _ => env) retries.toNat hpos 0 reg none
      (by intro i hi; simp [hinner, Except.isOk, Except.toBool])
    simpa [JobRunner.execute] using this.2

/-- Witness for `bad_opcode_is_retried` on the `["PONG"]` reply. -/
theorem bad_opcode_is_retried_witness :
    (JobRunner._execute ["w1", "w2"] badOpcodeEnv).result =
      Except.error (Exc.executionError "PONG") ∧
    (JobRunner._execute ["w1", "w2"] badOpcodeEnv).reg = ["w2"] ∧
    (JobRunner.execute 3 ["w1", "w2"] (fun _ => badOpcodeEnv)).attempts = 3 := by
  have h := bad_opcode_is_retried badOpcodeEnv "PONG" [] rfl rfl rfl rfl rfl
    (by decide) ["w1", "w2"] 3
  refine ⟨h.2.1.trans rfl, ?_, ?_⟩
  · rw [h.2.2.2.1]; rfl
  · exact (h.2.2.2.2 (by decide)).trans rfl

/-- C3: evaluation at the failing input. When the poll returns no events,
the body of `_execute` raises `TimeoutError`, but the catch-all handler
rewraps it, so `_execute` surfaces an `ExecutionError` (whose message
records the `TimeoutError`) and NOT a `TimeoutError` — contradicting the
claim, the `execute` docstring (which lists `TimeoutError` as a possible
exception) and the dead `except TimeoutError` arm of the retry loop. The
checked-out worker IS evicted from the registry, as claimed. -/
theorem no_reply_wrapped_into_execution_error :
    innerExecute timeoutEnv = Except.error Exc.timeoutError ∧
    (JobRunner._execute ["w1", "w2"] timeoutEnv).result =
      Except.error (Exc.executionError "TimeoutError") ∧
    (JobRunner._execute ["w1", "w2"] timeoutEnv).result ≠
      Except.error Exc.timeoutError ∧
    (JobRunner._execute ["w1", "w2"] timeoutEnv).reg = ["w2"] := by
  refine ⟨rfl, rfl, ?_, rfl⟩
  intro h
  have h2 : (Except.error (Exc.executionError "TimeoutError") :
      Except Exc String) = Except.error Exc.timeoutError := h
  simp at h2

/-- C5 counterexample: on a `JOBRES` reply whose decoded ok flag is false,
`JobRunner._execute` does NOT fail with `ExecutionError`: it returns the
last frame part as a success, and the worker is not touched. -/
theorem jobres_ok_false_counterexample :
    decode_result jobresFalseEnv.msg =
      some { worker_pid := "w1", res := false, data := "boom" } ∧
    (JobRunner._execute ["w1"] jobresFalseEnv).result = Except.ok "boom" ∧
    (JobRunner._execute ["w1"] jobresFalseEnv).reg = ["w1"] :=
  ⟨rfl, rfl, rfl⟩

/-- C5 amended: the dispatch engine returns `msg[-1]` for every `JOBRES`
reply, regardless of the ok flag, and leaves the registry unchanged (the
worker is released, not evicted); the `ok=false → ExecutionError(payload)`
handling lives in `Client.execute`, not in the dispatch engine. -/
theorem jobres_payload_returned_ignoring_ok (env : AttemptEnv)
    (rest : List String) (hs : env.sendErr = none) (hp : env.pollErr = none)
    (he : env.hasEvents = true) (hr : env.recvErr = none)
    (hm : env.msg = "JOBRES" :: rest) (reg : Registry) :
    (JobRunner._execute reg env).result =
      Except.ok (("JOBRES" :: rest).getLastD "") ∧
    (JobRunner._execute reg env).reg = reg ∧
    (∀ cfg : ClientCfg, ∀ counters : Counters, ∀ cenv : ClientEnv, ∀ r : Reply,
      cenv.reply = some r → r.res = false → cenv.duration ≤ cfg.timeout →
      (Client.execute cfg counters cenv).1 =
        Except.error (ClientErr.executionError r.data)) := by
  have hinner : innerExecute env = Except.ok (("JOBRES" :: rest).getLastD "") := by
    simp [innerExecute, hs, hp, he, hr, hm]
  refine ⟨?_, ?_, ?_⟩
  · simp [JobRunner._execute, hinner]
  · simp [JobRunner._execute, hinner]
  · intro cfg counters cenv r hrep hres hdur
    have hngt : ¬cenv.duration > cfg.timeout := not_lt.mpr hdur
    have hE : Client.execute cfg counters cenv =
        Client.executeReply cfg counters r cenv.duration := by
      simp [Client.execute, hrep]
    rw [hE, executeReply_eval, if_neg hngt]
    simp [hres]

/-- Witness for `jobres_payload_returned_ignoring_ok` on the concrete
failure envelope, together with the client-side handling of ok=false. -/
theorem jobres_payload_returned_ignoring_ok_witness :
    (JobRunner._execute ["w1"] jobresFalseEnv).result = Except.ok "boom" ∧
    (JobRunner._execute ["w1"] jobresFalseEnv).reg = ["w1"] ∧
    (Client.execute defaultClientCfg (fun _ => 0)
        { reply := some { worker_pid := "w1", res := false, data := "err" }
          duration := 500 }).1 =
      Except.error (ClientErr.executionError "err") := by
  have h := jobres_payload_returned_ignoring_ok jobresFalseEnv
    ["w1", "0", "boom"] rfl rfl rfl rfl rfl ["w1"]
  refine ⟨h.1.trans rfl, h.2.1, ?_⟩
  exact h.2.2 defaultClientCfg (fun _ => 0)
    { reply := some { worker_pid := "w1", res := false, data := "err" }
      duration := 500 }
    { worker_pid := "w1", res := false, data := "err" } rfl rfl (by decide)

/-- C1: in `Client.execute`, when a reply arrives and the elapsed time
strictly exceeds the soft timeout, the replying worker's overflow counter
is incremented, and if the incremented counter exceeds the overflow budget
the result is discarded and `TimeoutError` is raised; when the elapsed
time is within the soft timeout, that worker's counter is reset to 0. -/
theorem client_overflow_policy (cfg : ClientCfg) (counters : Counters)
    (env : ClientEnv) (r : Reply) (hr : env.reply = some r) :
    (env.duration > cfg.timeout →
      (Client.execute cfg counters env).2 r.worker_pid = counters r.worker_pid + 1 ∧
      (counters r.worker_pid + 1 > cfg.timeout_overflows →
        (Client.execute cfg counters env).1 = Except.error ClientErr.timeoutError)) ∧
    (env.duration ≤ cfg.timeout →
      (Client.execute cfg counters env).2 r.worker_pid = 0) := by
  have hE : Client.execute cfg counters env =
      Client.executeReply cfg counters r env.duration := by
    simp [Client.execute, hr]
  rw [hE, executeReply_eval]
  constructor
  · intro hd
    rw [if_pos hd]
    refine ⟨by simp, ?_⟩
    intro hb
    simp [hb]
  · intro hd
    rw [if_neg (not_lt.mpr hd)]
    simp

/-- Witness for `client_overflow_policy`: with budget 1 and counter already
1, a 1200 ms reply increments the counter to 2 and is discarded as a
timeout; with counter 0, a 300 ms reply resets the counter to 0. -/
theorem client_overflow_policy_witness :
    (Client.execute defaultClientCfg (fun _ => 1)
        { reply := some { worker_pid := "w1", res := true, data := "ok" }
          duration := 1200 }).2 "w1" = 2 ∧
    (Client.execute defaultClientCfg (fun _ => 1)
        { reply := some { worker_pid := "w1", res := true, data := "ok" }
          duration := 1200 }).1 = Except.error ClientErr.timeoutError ∧
    (Client.execute defaultClientCfg (fun _ => 0)
        { reply := some { worker_pid := "w1", res := true, data := "ok" }
          duration := 300 }).2 "w1" = 0 := by
  have h1 := client_overflow_policy defaultClientCfg (fun _ => 1)
    { reply := some { worker_pid := "w1", res := true, data := "ok" }
      duration := 1200 }
    { worker_pid := "w1", res := true, data := "ok" } rfl
  have h2 := client_overflow_policy defaultClientCfg (fun _ => 0)
    { reply := some { worker_pid := "w1", res := true, data := "ok" }
      duration := 300 }
    { worker_pid := "w1", res := true, data := "ok" } rfl
  refine ⟨?_, ?_, h2.2 (by decide)⟩
  · exact ((h1.1 (by decide)).1).trans (by decide)
  · exact (h1.1 (by decide)).2 (by decide)

/-- C6: in `Client.execute`, a poll that expires without a reply raises
`TimeoutError` and leaves the counters untouched; a reply whose ok flag is
false raises `ExecutionError(payload)` (provided the overflow budget was
not tripped); an ok reply within budget returns the payload. -/
theorem client_reply_outcomes (cfg : ClientCfg) (counters : Counters)
    (env : ClientEnv) :
    (env.reply = none →
      Client.execute cfg counters env = (Except.error ClientErr.timeoutError, counters)) ∧
    (∀ r : Reply, env.reply = some r →
      (env.duration ≤ cfg.timeout ∨ counters r.worker_pid + 1 ≤ cfg.timeout_overflows) →
      ((r.res = false →
        (Client.execute cfg counters env).1 =
          Except.error (ClientErr.executionError r.data)) ∧
       (r.res = true →
        (Client.execute cfg counters env).1 = Except.ok r.data))) := by
  constructor
  · intro hn
    simp [Client.execute, hn]
  · intro r hr hbud
    have hE : Client.execute cfg counters env =
        Client.executeReply cfg counters r env.duration := by
      simp [Client.execute, hr]
    rw [hE, executeReply_eval]
    by_cases hd : env.duration > cfg.timeout
    · have hb : ¬counters r.worker_pid + 1 > cfg.timeout_overflows := by
        rcases hbud with h1 | h2
        · exact absurd hd (not_lt.mpr h1)
        · omega
      rw [if_pos hd, if_neg hb]
      constructor
      · intro hres
        simp [hres]
      · intro hres
        simp [hres]
    · rw [if_neg hd]
      constructor
      · intro hres
        simp [hres]
      · intro hres
        simp [hres]

/-- Witness for `client_reply_outcomes`: an expired poll raises a timeout;
a fast ok reply returns the payload "49". -/
theorem client_reply_outcomes_witness :
    Client.execute defaultClientCfg (fun _ => 0) { reply := none, duration := 1600 } =
      (Except.error ClientErr.timeoutError, fun _ => 0) ∧
    (Client.execute defaultClientCfg (fun _ => 0)
        { reply := some { worker_pid := "w1", res := true, data := "49" }
          duration := 200 }).1 = Except.ok "49" := by
  constructor
  · exact (client_reply_outcomes defaultClientCfg (fun _ => 0)
      { reply := none, duration := 1600 }).1 rfl
  · exact ((client_reply_outcomes defaultClientCfg (fun _ => 0)
      { reply := some { worker_pid := "w1", res := true, data := "49" }
        duration := 200 }).2
      { worker_pid := "w1", res := true, data := "49" } rfl
      (Or.inl (by decide))).2 rfl

/-- C10: the overflow-budget check at client.py line 80 runs before the
ok-flag check at line 85, so a reply that is both over the soft timeout
with an exhausted budget and has ok=false raises `TimeoutError`, not
`ExecutionError`. -/
theorem client_budget_check_precedes_ok_check (cfg : ClientCfg)
    (counters : Counters) (env : ClientEnv) (r : Reply)
    (hr : env.reply = some r) (hres : r.res = false)
    (hd : env.duration > cfg.timeout)
    (hb : counters r.worker_pid + 1 > cfg.timeout_overflows) :
    (Client.execute cfg counters env).1 = Except.error ClientErr.timeoutError ∧
    (Client.execute cfg counters env).1 ≠
      Except.error (ClientErr.executionError r.data) := by
  have hE : Client.execute cfg counters env =
      Client.executeReply cfg counters r env.duration := by
    simp [Client.execute, hr]
  rw [hE, executeReply_eval, if_pos hd, if_pos hb]
  exact ⟨rfl, by simp⟩

/-- Witness for `client_budget_check_precedes_ok_check`. -/
theorem client_budget_check_precedes_ok_check_witness :
    (Client.execute defaultClientCfg (fun _ => 1)
        { reply := some { worker_pid := "w1", res := false, data := "bad" }
          duration := 1200 }).1 = Except.error ClientErr.timeoutError :=
  (client_budget_check_precedes_ok_check defaultClientCfg (fun _ => 1)
    { reply := some { worker_pid := "w1", res := false, data := "bad" }
      duration := 1200 }
    { worker_pid := "w1", res := false, data := "bad" }
    rfl rfl (by decide) (by decide)).1

/-- C7: the pool's size is preserved by `Pool.execute`: the queue built by
`Pool.__init__` has `size` connectors, and after an `execute` that found a
connector the queue again holds `size` connectors — on success the used
connector is put back, on failure a freshly created client replaces it
before the error is re-raised. -/
theorem pool_size_invariant (cfg : ClientCfg) (size : Nat) (pool : PoolState)
    (env : ClientEnv) (r : Except ClientErr String) (pool2 : PoolState)
    (hlen : pool.length = size)
    (hex : Pool.execute cfg pool env = some (r, pool2)) :
    (Pool.init size).length = size ∧ pool2.length = size := by
  refine ⟨by simp [Pool.init], ?_⟩
  cases pool with
  | nil => simp [Pool.execute] at hex
  | cons f rest =>
    rcases hce : Client.execute cfg f.counters env with ⟨res, c⟩
    cases res with
    | ok d =>
      simp only [Pool.execute, hce] at hex
      injection hex with hx
      cases hx
      simpa using hlen
    | error e =>
      simp only [Pool.execute, hce] at hex
      injection hex with hx
      cases hx
      simpa using hlen

/-- Witness for `pool_size_invariant`: a one-connector pool that hits a
poll timeout still holds one connector afterwards. -/
theorem pool_size_invariant_witness :
    (Pool.init 1).length = 1 ∧ ([freshFabric] : PoolState).length = 1 :=
  pool_size_invariant defaultClientCfg 1 [freshFabric]
    { reply := none, duration := 1600 }
    (Except.error ClientErr.timeoutError) [freshFabric] rfl rfl

end Powerhose
